import Mathlib

/-!
Verification development for the SOLARWATT Manager integration
(`custom_components/solarwatt_manager`).

The Python source is shallowly embedded:
* strings are `String` / `List Char`;
* Python floats are modelled as exact rationals (`ℚ`); the numeric literals
  occurring in raw states are translated exactly, and `round(x, n)` is
  modelled as round-half-to-even on `ℚ`;
* `None` is `Option.none`; exceptions are `Except` / explicit error values;
* the aiohttp layer is abstracted into an environment record that supplies
  the responses the appliance would return, so the control flow of each
  client method becomes a pure function of that environment.

Only ASCII inputs are relied on by the theorems; character predicates
(`\s`, `isdigit`, `lower`) are modelled on their ASCII behaviour.
-/

namespace Solarwatt

/-- Python's `\s` class (ASCII range): space, tab, newline, carriage return,
vertical tab, form feed. -/
def pySpace (c : Char) : Bool :=
  c = ' ' || c = '\t' || c = '\n' || c = '\r' || c = '\x0b' || c = '\x0c'

/-- Right-strip Python whitespace, as in `str.strip`'s trailing half. -/
def pyStripRight (l : List Char) : List Char :=
  (l.reverse.dropWhile pySpace).reverse

/-- Python `str.strip()` (whitespace on both ends). -/
def pyStrip (l : List Char) : List Char :=
  pyStripRight (l.dropWhile pySpace)

/-- Value of an ASCII digit string, as `int(...)` computes it. -/
def digitsToNat (l : List Char) : ℕ :=
  l.foldl (fun n c => 10 * n + (c.toNat - 48)) 0

/-- `10 ^ e` over `ℚ` for an integer exponent. -/
def pow10 (e : ℤ) : ℚ :=
  if 0 ≤ e then (10 : ℚ) ^ e.toNat else ((10 : ℚ) ^ (-e).toNat)⁻¹

/-- Round half to even to the nearest integer, the behaviour of Python's
`round` on exact ties. -/
def rhe (q : ℚ) : ℤ :=
  if q - ⌊q⌋ = 1 / 2 then (if ⌊q⌋ % 2 = 0 then ⌊q⌋ else ⌊q⌋ + 1) else round q

/-- Python `round(q, n)` modelled exactly over `ℚ`. -/
def roundTo (n : ℕ) (q : ℚ) : ℚ :=
  (rhe (q * 10 ^ n) : ℚ) / 10 ^ n

/-- Python `str.replace(pat, rep)` (leftmost, non-overlapping), with fuel;
`pat` is assumed nonempty, which holds at the single call site. -/
def replaceSubGo (pat rep : List Char) : ℕ → List Char → List Char
  | 0, l => l
  | _, [] => []
  | f + 1, c :: rest =>
    if pat.isPrefixOf (c :: rest) then
      rep ++ replaceSubGo pat rep f (rest.drop (pat.length - 1))
    else
      c :: replaceSubGo pat rep f rest

def replaceSub (pat rep l : List Char) : List Char :=
  replaceSubGo pat rep l.length l

/-- A Python value as stored in `ParsedState.value`: `None`, a bool,
an `int`, a `float` (exact rational model) or a string. -/
inductive PyVal : Type
  | vnone
  | vbool (b : Bool)
  | vint (n : ℤ)
  | vfloat (q : ℚ)
  | vstr (s : String)
deriving DecidableEq, Repr

/-- `coordinator.ParsedState`. -/
structure ParsedState : Type where
  value : PyVal
  unit : Option String := none
  timestamp_ms : Option ℕ := none
deriving DecidableEq, Repr

/-- `float` narrowing at the end of `parse_state`:
`if isinstance(val, float) and val.is_integer(): val = int(val)`. -/
def narrowVal (q : ℚ) : PyVal :=
  if q.den = 1 then .vint q.num else .vfloat q

/-- Numeric value denoted by sign, integer digits, fraction digits and a
signed exponent, i.e. the exact value of `float(num_s)` for the matched
literal. -/
def mkNum (sgn : ℚ) (ids fds : List Char) (esgn : ℤ) (eds : List Char) : ℚ :=
  sgn * ((digitsToNat ids : ℚ) + (digitsToNat fds : ℚ) / pow10 (fds.length : ℤ))
    * pow10 (esgn * (digitsToNat eds : ℤ))

/-- Optional `[+-]` sign, returning the factor and the remaining input. -/
def readSign (l : List Char) : ℚ × List Char :=
  match l with
  | c :: r => if c = '+' then (1, r) else if c = '-' then (-1, r) else (1, l)
  | [] => (1, l)

/-- Optional `[+-]` sign of the exponent. -/
def readSignInt (l : List Char) : ℤ × List Char :=
  match l with
  | c :: r => if c = '+' then (1, r) else if c = '-' then (-1, r) else (1, l)
  | [] => (1, l)

/-- The continuation `\s*([^\d\s].*)?\s*$` of `_NUM_RE`, combined with the
Python post-processing `unit = (m.group(2) or "").strip() or None`.
Returns `none` when the continuation cannot match, `some u` with the
(stripped) unit otherwise.  `.` does not match a newline, hence the `'\n'`
check on the right-stripped tail. -/
def unitFromRest (rest : List Char) : Option (Option (List Char)) :=
  let t := rest.dropWhile pySpace
  match t with
  | [] => some none
  | c :: u =>
    if c.isDigit then none
    else
      let w := pyStripRight u
      if '\n' ∈ w then none else some (some (c :: w))

/-- Exponent part `(?:[eE][+-]?\d+)?` of `_NUM_RE` followed by the
continuation; the greedy exponent candidate is tried first, falling back to
leaving the group unmatched, exactly as the regex backtracks. -/
def tryExpAndUnit (sgn : ℚ) (ids fds rest : List Char) :
    Option (ℚ × Option (List Char)) :=
  let noExp : Option (ℚ × Option (List Char)) :=
    match unitFromRest rest with
    | some u => some (mkNum sgn ids fds 1 [], u)
    | none => none
  match rest with
  | c :: r2 =>
    if c = 'e' ∨ c = 'E' then
      let p := readSignInt r2
      let eds := p.2.takeWhile Char.isDigit
      if eds ≠ [] then
        match unitFromRest (p.2.drop eds.length) with
        | some u => some (mkNum sgn ids fds p.1 eds, u)
        | none => noExp
      else noExp
    else noExp
  | [] => noExp

/-- Fraction part `(?:\.\d+)?` of the first alternative of `_NUM_RE`; the
greedy candidate (with fraction) is tried first, then the group is dropped,
as the regex backtracks.  (Shorter digit runs never match because the
continuation would then start with a digit.) -/
def tryFracEtc (sgn : ℚ) (ids r0 : List Char) : Option (ℚ × Option (List Char)) :=
  match r0 with
  | '.' :: r1 =>
    let fds := r1.takeWhile Char.isDigit
    if fds ≠ [] then
      match tryExpAndUnit sgn ids fds (r1.drop fds.length) with
      | some res => some res
      | none => tryExpAndUnit sgn ids [] r0
    else tryExpAndUnit sgn ids [] r0
  | _ => tryExpAndUnit sgn ids [] r0

/-- `_NUM_RE.match(s)` combined with `float(m.group(1))`:
`^\s*([+-]?(?:\d+(?:\.\d+)?|\.\d+)(?:[eE][+-]?\d+)?)\s*([^\d\s].*)?\s*$`.
Returns the numeric value of group 1 and the stripped group 2. -/
def matchNum (cs : List Char) : Option (ℚ × Option (List Char)) :=
  let c1 := cs.dropWhile pySpace
  let p := readSign c1
  let ids := p.2.takeWhile Char.isDigit
  if ids ≠ [] then tryFracEtc p.1 ids (p.2.drop ids.length)
  else
    match p.2 with
    | '.' :: r1 =>
      let fds := r1.takeWhile Char.isDigit
      if fds ≠ [] then tryExpAndUnit p.1 [] fds (r1.drop fds.length) else none
    | _ => none

/-- Unit normalisation and rounding block of `parse_state`
(`coordinator.py`, the body of the `if m:` branch after `float(num_s)`). -/
def unitApply (v : ℚ) (u0 : Option (List Char)) : ParsedState :=
  -- unit = unit.replace("\\u00b0", "°")
  let u1 := u0.map (replaceSub "\\u00b0".data ['°'])
  -- Ws -> Wh
  let p2 : ℚ × Option (List Char) :=
    if u1 = some "Ws".data then (v / 3600, some "Wh".data) else (v, u1)
  -- Wh -> kWh
  let p3 : ℚ × Option (List Char) :=
    if p2.2 = some "Wh".data then (p2.1 / 1000, some "kWh".data) else p2
  -- rounding per unit
  let p4 : ℚ × Option (List Char) :=
    if p3.2 = some "kWh".data then (roundTo 3 p3.1, p3.2)
    else if p3.2 = some "kW".data then (roundTo 3 p3.1, p3.2)
    else if p3.2 = some "W".data ∨ p3.2 = some "V".data ∨ p3.2 = some "A".data
        ∨ p3.2 = some "Hz".data ∨ p3.2 = some "%".data then (roundTo 2 p3.1, p3.2)
    else if p3.2 = some "°C".data ∨ p3.2 = some "C".data then
      (roundTo 2 p3.1, some "°C".data)
    else p3
  { value := narrowVal p4.1, unit := p4.2.map String.mk }

/-- Body of `parse_state` on a (string) state, with fuel for the recursion
through the `timestamp|value` encoding; the fuel is irrelevant as long as it
exceeds the input length (`parseCore_irrel`). -/
def parseCore : ℕ → List Char → ParsedState
  | 0, _ => { value := .vnone }
  | f + 1, cs =>
    let s := pyStrip cs
    if s = "NULL".data then { value := .vnone }
    else if s = "ON".data then { value := .vbool true }
    else if s = "OFF".data then { value := .vbool false }
    else if '|' ∈ s then
      -- left, right = s.split("|", 1); both sides stripped
      let left := pyStrip (s.takeWhile (fun c => c ≠ '|'))
      let right := pyStrip ((s.dropWhile (fun c => c ≠ '|')).tail)
      let ts : Option ℕ :=
        if left ≠ [] ∧ left.all Char.isDigit then some (digitsToNat left) else none
      let ps := parseCore f right
      { value := ps.value, unit := ps.unit, timestamp_ms := ts }
    else
      match matchNum s with
      | some (v, u) => unitApply v u
      | none => { value := .vstr (String.mk s) }

/-- `coordinator.parse_state`.  The input is the raw state (`None` or a
string); non-string states are passed through `str(...)` by the source and
are not modelled. -/
def parse_state (state : Option String) : ParsedState :=
  match state with
  | none => { value := .vnone }
  | some s => parseCore (s.data.length + 1) s.data

end Solarwatt

namespace Solarwatt

/-! ## `naming.py`: name normalisation and default-enabled patterns -/

/-- One normalisation rule of `NORMALIZATION_RULES`.  Every rule is an
anchored (`^`) pattern, so `re.sub` rewrites at most one match, at the
start of the string:
* `segRule lit1 lit2 repl` is `^lit1[^_]+lit2 -> repl` (the literal after
  `[^_]+` always starts with an underscore, so the greedy segment match is
  the run of non-underscore characters);
* `mystromRule` is `^mystrom_switch_([^_]+)_ -> mystrom_\1_`;
* `kacoRule` is
  `^sunspecnext_inverter_KACO_.*?_(?=(harmonized_|inverter_|limitable_|pv_power_production_)) -> kacoinv_`. -/
inductive NRule : Type
  | segRule (lit1 lit2 repl : List Char)
  | mystromRule
  | kacoRule
deriving DecidableEq, Repr

/-- Match a literal at the head of the input, returning the remainder. -/
def dropLit (lit cs : List Char) : Option (List Char) :=
  if lit.isPrefixOf cs then some (cs.drop lit.length) else none

/-- Alternatives of the `kacoRule` lookahead. -/
def kacoAlt (rest : List Char) : Bool :=
  "harmonized_".data.isPrefixOf rest || "inverter_".data.isPrefixOf rest
    || "limitable_".data.isPrefixOf rest || "pv_power_production_".data.isPrefixOf rest

/-- Lazy `.*?_(?=alts)` scan: stop at the first underscore followed by one
of the alternatives; `.` does not match a newline. -/
def kacoScan : List Char → Option (List Char)
  | [] => none
  | c :: rest =>
    if c = '_' ∧ kacoAlt rest then some rest
    else if c = '\n' then none
    else kacoScan rest

/-- `^lit1[^_]+lit2 -> repl`: after the literal head, the greedy `[^_]+`
segment is the nonempty run of non-underscore characters (the following
literal starts with an underscore), then `lit2` must follow; the matched
span is replaced by `repl`. -/
def segRuleApply (lit1 lit2 repl : List Char) (cs : List Char) : Option (List Char) :=
  (dropLit lit1 cs).bind fun r =>
    if r.takeWhile (fun c => c ≠ '_') = [] then none
    else
      (dropLit lit2 (r.drop (r.takeWhile (fun c => c ≠ '_')).length)).map
        fun rest => repl ++ rest

/-- `^mystrom_switch_([^_]+)_ -> mystrom_\1_`: like `segRuleApply` but the
captured segment is kept in the replacement. -/
def mystromApply (cs : List Char) : Option (List Char) :=
  (dropLit "mystrom_switch_".data cs).bind fun r =>
    if r.takeWhile (fun c => c ≠ '_') = [] then none
    else
      (dropLit "_".data (r.drop (r.takeWhile (fun c => c ≠ '_')).length)).map
        fun rest => "mystrom_".data ++ (r.takeWhile (fun c => c ≠ '_') ++ ("_".data ++ rest))

/-- The KACO rule: literal head, lazy `.*?_` scan up to the lookahead,
replacement `kacoinv_`. -/
def kacoApply (cs : List Char) : Option (List Char) :=
  (dropLit "sunspecnext_inverter_KACO_".data cs).bind fun r =>
    (kacoScan r).map fun rest => "kacoinv_".data ++ rest

/-- Apply one normalisation rule: `none` when the anchored pattern does not
match (in which case `re.sub` leaves the string unchanged). -/
def applyNRule : NRule → List Char → Option (List Char)
  | .segRule lit1 lit2 repl, cs => segRuleApply lit1 lit2 repl cs
  | .mystromRule, cs => mystromApply cs
  | .kacoRule, cs => kacoApply cs

/-- `naming.NORMALIZATION_RULES`, in source order. -/
def NORMALIZATION_RULES : List NRule :=
  [ .segRule "kiwigrid_location_standard_".data "_harmonized_".data "kiwigrid_".data
  , .segRule "foxesshybrid_battery_".data "_".data "foxess_".data
  , .segRule "foxesshybrid_inverter_".data "_".data "foxessinv_".data
  , .segRule "foxesshybrid_meter_".data "_".data "foxessmeter_".data
  , .segRule "keba_wallbox_".data "_".data "keba_".data
  , .mystromRule
  , .segRule "modbus_sunspec_sma_inverter_".data "_".data "sma_".data
  , .segRule "modbus_sunspec_fronius_inverter_".data "_".data "fronius_".data
  , .segRule "myreserveethernet_myreserve_".data "_".data "myreserve_".data
  , .segRule "myreserveethernet_acs_".data "_0_".data "acs_".data
  , .segRule "myreserveethernet_acs_".data "_".data "acs_".data
  , .segRule "pvplant_standard_".data "_".data "pvplant_".data
  , .segRule "batteryflex_battery_".data "_harmonized_".data "batteryflex_".data
  , .segRule "batteryflex_battery_".data "_batteryChannelGroup_".data "batteryflex_".data
  , .segRule "batteryflex_battery_".data "_".data "batteryflex_".data
  , .kacoRule ]

/-- `naming.clean_item_key`: strip all leading `#`. -/
def clean_item_key (raw : String) : String :=
  String.mk (raw.data.dropWhile (fun c => c = '#'))

/-- Rule pipeline of `normalize_item_name` on character lists. -/
def normalizeChars (cs : List Char) : List Char :=
  NORMALIZATION_RULES.foldl (fun a r => (applyNRule r a).getD a)
    (cs.dropWhile (fun c => c = '#'))

/-- `naming.normalize_item_name`. -/
def normalize_item_name (raw : String) : String :=
  String.mk (normalizeChars raw.data)

/-- `naming.DEFAULT_ENABLED_GROUPS`: each group is a pair
`(lit1, mid)` standing for the regex `lit1[^_]+mid` together with the
allow-listed suffixes; the full pattern for a suffix `suf` is
`^lit1[^_]+(mid ++ suf)$`. -/
def DEFAULT_ENABLED_GROUPS : List ((List Char × List Char) × List (List Char)) :=
  [ (("kiwigrid_location_standard_".data, "_harmonized_".data),
     [ "power_in".data, "power_out".data, "power_produced".data
     , "power_released".data, "power_consumed".data
     , "power_consumed_from_grid".data, "power_consumed_from_storage".data
     , "power_consumed_from_producers".data, "power_buffered".data
     , "power_buffered_from_grid".data, "power_buffered_from_producers".data
     , "power_self_consumed".data, "power_self_supplied".data
     , "work_in_total".data, "work_out_total".data, "work_produced_total".data
     , "work_released_total".data, "work_consumed_total".data
     , "work_consumed_from_grid_total".data, "work_consumed_from_storage_total".data
     , "work_consumed_from_producers_total".data, "work_buffered_total".data
     , "work_buffered_from_grid_total".data, "work_buffered_from_producers_total".data
     , "work_self_consumed_total".data, "work_self_supplied_total".data ])
  , (("foxesshybrid_battery_".data, "_".data),
     [ "battery_bms_soc".data, "battery_bms_power".data, "battery_mode".data
     , "battery_work_in_total".data, "battery_work_out_total".data
     , "battery_bms_1_voltage".data, "battery_bms_1_current".data
     , "battery_bms_1_temperature".data ])
  , (("batteryflex_battery_".data, "_harmonized_".data),
     [ "power_in".data, "power_out".data, "work_in".data, "work_out".data ])
  , (("batteryflex_battery_".data, "_batteryChannelGroup_".data),
     [ "batteryStateOfCharge".data, "backupSoc".data, "batteryModeString".data
     , "batteryChargeCurrent".data, "batteryDischargeCurrent".data
     , "batteryVoltage".data, "batteryCurrent".data, "batteryEnergyIn".data
     , "batteryEnergyOut".data, "batteryPower".data, "batteryStateOfHealth".data ])
  , (("myreserveethernet_acs_".data, "_0_".data),
     [ "metering_produced_power".data, "metering_consumed_power".data
     , "acs_pgrid".data, "harmonized_work_out_total".data
     , "harmonized_work_in_total".data, "acs_power".data
     , "harmonized_power_out".data, "harmonized_power_in".data
     , "harmonized_work_out".data, "harmonized_work_in".data ])
  , (("myreserveethernet_myreserve_".data, "_".data),
     [ "harmonized_power_out".data, "harmonized_power_in".data
     , "harmonized_work_in".data, "harmonized_work_out".data
     , "sdata_group_soc".data, "harmonized_work_out_total".data
     , "harmonized_work_in_total".data, "fdata_group_batteryModeString".data ]) ]

/-- Full match of `^lit1[^_]+lit2$` (the shape of every default-enabled
pattern; `lit2` always starts with an underscore, so the `[^_]+` match is
the maximal run of non-underscore characters). -/
def segFullMatch (lit1 lit2 cs : List Char) : Bool :=
  match dropLit lit1 cs with
  | none => false
  | some r =>
    let seg := r.takeWhile (fun c => c ≠ '_')
    decide (seg ≠ []) && decide (r.drop seg.length = lit2)

/-- `naming.is_enabled_by_default`. -/
def is_enabled_by_default (item_name : String) : Bool :=
  let key := (clean_item_key item_name).data
  DEFAULT_ENABLED_GROUPS.any fun g =>
    g.2.any fun suf => segFullMatch g.1.1 (g.1.2 ++ suf) key

end Solarwatt

namespace Solarwatt

/-! ## `coordinator.guess_ha_meta`: metadata inference -/

/-- Home Assistant `SensorDeviceClass` values used by the source. -/
inductive DeviceClass : Type
  | power | energy | voltage | current | frequency | temperature | battery
deriving DecidableEq, Repr

/-- Home Assistant `SensorStateClass` values used by the source. -/
inductive StateClass : Type
  | measurement | total_increasing
deriving DecidableEq, Repr

/-- The `meta` dict built by `guess_ha_meta`.  The dict only ever holds the
keys `suggested_unit`, `device_class`, `state_class` and `icon`, so it is
modelled as a record of optional fields (`suggested_unit` is always
present in the dict; its value may be `None`). -/
structure HMeta : Type where
  suggested_unit : Option String
  device_class : Option DeviceClass := none
  state_class : Option StateClass := none
  icon : Option String := none
deriving DecidableEq, Repr

/-- ASCII `str.lower()`. -/
def toLowerStr (s : String) : String :=
  String.mk (s.data.map Char.toLower)

/-- Python's `pat in s` on strings: contiguous substring test. -/
def hasSub (pat : List Char) : List Char → Bool
  | [] => pat.isEmpty
  | c :: rest => pat.isPrefixOf (c :: rest) || hasSub pat rest

/-- `any(k in name_l for k in keys)` — substring membership. -/
def containsAny (s : String) (keys : List String) : Bool :=
  keys.any fun k => hasSub k.data s.data

/-- The `unit_map` of `guess_ha_meta`.  The Home Assistant unit constants
are string enums whose values are exactly these strings
(`UnitOfPower.WATT = "W"`, `UnitOfEnergy.KILO_WATT_HOUR = "kWh"`, ...). -/
def haUnitMap : List (String × String) :=
  [ ("W", "W"), ("kW", "kW"), ("Wh", "Wh"), ("kWh", "kWh"), ("V", "V")
  , ("A", "A"), ("Hz", "Hz"), ("°C", "°C"), ("%", "%") ]

/-- `coordinator.guess_ha_meta`.  `oh_type = none` also covers the falsy
empty string via the explicit check below, mirroring `if not oh_type`.
The `"icon" not in meta` guard is modelled as `icon = none`: no earlier
assignment ever sets an icon. -/
def guess_ha_meta (oh_type : Option String) (parsed : ParsedState)
    (item_name : Option String) : HMeta :=
  let unit := parsed.unit
  let name_l := toLowerStr (item_name.getD "")
  let su : Option String :=
    match unit with
    | none => none
    | some u => some ((List.lookup u haUnitMap).getD u)
  let m0 : HMeta := { suggested_unit := su }
  -- fallbacks from unit / name only
  let m1 : HMeta :=
    if unit = some "W" ∨ unit = some "kW" then
      { m0 with device_class := some .power, state_class := some .measurement }
    else if unit = some "kWh" ∨ unit = some "Wh" then
      { m0 with device_class := some .energy, state_class := some .total_increasing }
    else if unit = some "V" then
      { m0 with device_class := some .voltage, state_class := some .measurement }
    else if unit = some "A" then
      { m0 with device_class := some .current, state_class := some .measurement }
    else if unit = some "Hz" then
      { m0 with device_class := some .frequency, state_class := some .measurement }
    else if unit = some "°C" then
      { m0 with device_class := some .temperature, state_class := some .measurement }
    else if unit = some "%" then
      let mA := { m0 with state_class := some StateClass.measurement }
      if containsAny name_l ["soc", "stateofcharge", "battery", "akku"] then
        { mA with device_class := some .battery }
      else mA
    else m0
  -- icon suggestions
  let m2 : HMeta :=
    if m1.icon = none then
      if containsAny name_l ["pv", "solar", "generator"] then
        { m1 with icon := some "mdi:solar-power" }
      else if containsAny name_l ["grid", "netz"] then
        { m1 with icon := some "mdi:transmission-tower" }
      else if containsAny name_l ["battery", "akku"] then
        { m1 with icon := some "mdi:battery" }
      else if containsAny name_l ["house", "home", "load", "verbrauch"] then
        { m1 with icon := some "mdi:home-lightning-bolt" }
      else m1
    else m1
  -- OpenHAB type hint overrides
  match oh_type with
  | none => m2
  | some t =>
    if t = "" then m2
    else if t.startsWith "Number:Power" then
      let m := { m2 with device_class := some DeviceClass.power,
                         state_class := some StateClass.measurement }
      if unit = none then { m with suggested_unit := some "W" } else m
    else if t.startsWith "Number:Energy" then
      let m := { m2 with device_class := some DeviceClass.energy,
                         state_class := some StateClass.total_increasing }
      if unit = none then { m with suggested_unit := some "kWh" } else m
    else if t.startsWith "Number:Temperature" then
      let m := { m2 with device_class := some DeviceClass.temperature,
                         state_class := some StateClass.measurement }
      if unit = none then { m with suggested_unit := some "°C" } else m
    else if t.startsWith "Number:Frequency" then
      let m := { m2 with device_class := some DeviceClass.frequency,
                         state_class := some StateClass.measurement }
      if unit = none then { m with suggested_unit := some "Hz" } else m
    else if t.startsWith "Number:ElectricCurrent" then
      let m := { m2 with device_class := some DeviceClass.current,
                         state_class := some StateClass.measurement }
      if unit = none then { m with suggested_unit := some "A" } else m
    else if t.startsWith "Number:ElectricPotential" then
      let m := { m2 with device_class := some DeviceClass.voltage,
                         state_class := some StateClass.measurement }
      if unit = none then { m with suggested_unit := some "V" } else m
    else if t.startsWith "Number:Dimensionless" then
      let m := { m2 with state_class := some StateClass.measurement }
      if unit = some "%" then { m with device_class := some DeviceClass.battery } else m
    else m2

end Solarwatt

namespace Solarwatt

/-! ## `SOLARWATTClient`: session manager and fetch layer

The aiohttp interactions are abstracted: an environment record supplies
the responses the appliance returns and the outcome of each login, and
every client method becomes a pure function of that environment.  Raised
exceptions become error values of `SwErr`; `UpdateFailed` subclasses map
one-to-one onto its constructors. -/

/-- The typed error taxonomy (`SolarwattAuthError`,
`SolarwattNotManagerError`, `SolarwattConnectionError`,
`SolarwattProtocolError`). -/
inductive SwErr : Type
  | auth | notManager | conn | protocol
deriving DecidableEq, Repr

/-- The session-relevant fields of a login response: HTTP status, the
structured `kiwisessionid` cookie value (if the cookie jar parsed one) and
the raw `Set-Cookie` header values. -/
structure LoginResp : Type where
  status : ℕ
  cookieKiwi : Option String
  setCookie : List String
deriving DecidableEq, Repr

/-- Session state of the client: the explicitly tracked session cookie
(`_kiwi_cookie`, e.g. `"kiwisessionid=..."`) and `_last_login`. -/
structure SessState : Type where
  kiwi : Option String
  lastLogin : ℚ
deriving DecidableEq, Repr

/-- Suffix of `l` after the first occurrence of `pat`
(`h.split(pat, 1)[1]`), or `none` when `pat` does not occur. -/
def afterFirst (pat : List Char) : List Char → Option (List Char)
  | [] => if pat.isEmpty then some [] else none
  | c :: rest =>
    if pat.isPrefixOf (c :: rest) then some ((c :: rest).drop pat.length)
    else afterFirst pat rest

/-- The `Set-Cookie` fallback scan of `async_login`: first header
containing `kiwisessionid=` whose value (up to `;`) is nonempty; the loop
`break`s only when a nonempty value is found. -/
def scanSetCookie : List String → Option String
  | [] => none
  | h :: rest =>
    match afterFirst "kiwisessionid=".data h.data with
    | some part =>
      let val := part.takeWhile (fun c => c ≠ ';')
      if val ≠ [] then some (String.mk ("kiwisessionid=".data ++ val))
      else scanSetCookie rest
    | none => scanSetCookie rest

/-- `SOLARWATTClient.async_login`, as a function of the current time, the
current session state and the login response.  The optional 303 redirect
warm-up is a best-effort no-op and is not modelled; transport failures
before a response (mapped to `SolarwattConnectionError`) are outside this
response-driven model. -/
def extractKiwi (st : SessState) (r : LoginResp) : Option String :=
  -- extract kiwisessionid from the structured cookie if present, else keep
  -- the previously stored `_kiwi_cookie`; fall back to scanning the
  -- `Set-Cookie` headers only when still unset (`if not self._kiwi_cookie`)
  match (match r.cookieKiwi with
         | some v => some ("kiwisessionid=" ++ v)
         | none => st.kiwi) with
  | none => scanSetCookie r.setCookie
  | some k => some k

def async_login (now : ℚ) (st : SessState) (r : LoginResp) : Except SwErr SessState :=
  if r.status ≠ 200 ∧ r.status ≠ 303 then
    .error (if r.status = 401 ∨ r.status = 403 then .auth
            else if r.status = 404 then .notManager else .conn)
  else
    match extractKiwi st r with
    | none => .error .auth
    | some k => .ok { kiwi := some k, lastLogin := now }

/-- `self.session_ttl = 900` (`SOLARWATTClient.__init__`). -/
def session_ttl : ℚ := 900

/-- The login trigger of `SOLARWATTClient._ensure_session`:
`time.time() - self._last_login > self.session_ttl`. -/
def ensure_login_needed (now lastLogin : ℚ) : Bool :=
  decide (session_ttl < now - lastLogin)

/-- One HTTP response as seen by the fetch layer. -/
structure HttpResp : Type where
  status : ℕ
  contentType : String
  body : String
deriving DecidableEq, Repr

/-- A request either fails at the transport level (`ClientError` /
`asyncio.TimeoutError`) or yields a response. -/
inductive RespOrFail : Type
  | fail
  | resp (r : HttpResp)
deriving DecidableEq, Repr

/-- Environment of one fetch call: whether the session is fresh (so
`_ensure_session` performs no login), the outcome of the login performed
by `_ensure_session` when stale (`none` = success), the first response,
the outcome of the re-login after a 401/HTML first response, and the
retried response. -/
structure FetchEnv : Type where
  fresh : Bool
  loginEnsure : Option SwErr
  r1 : RespOrFail
  loginRetry : Option SwErr
  r2 : RespOrFail
deriving DecidableEq, Repr

/-- Observable outcome of one fetch call: the returned body or raised
error, how many logins `_ensure_session` performed, how many re-logins the
401/HTML retry path performed, and how many GET requests were issued. -/
structure FetchOut : Type where
  result : Except SwErr String
  ensureLogins : ℕ
  retryLogins : ℕ
  requests : ℕ
deriving Repr

/-- `"json" in ct` after `ct = (headers.get("Content-Type") or "").lower()`
(`_ensure_json`). -/
def ctHasJson (ct : String) : Bool :=
  hasSub "json".data (toLowerStr ct).data

/-- `"text/html" in ct` after lowering (the HTML-shell retry trigger). -/
def ctHasHtml (ct : String) : Bool :=
  hasSub "text/html".data (toLowerStr ct).data

/-- `SOLARWATTClient._ensure_json`: `SolarwattProtocolError` unless the
content type mentions JSON; the body parse itself is not modelled (a JSON
decode failure would fall into the generic handler as
`SolarwattConnectionError`). -/
def ensure_json (r : HttpResp) : Except SwErr String :=
  if ctHasJson r.contentType then .ok r.body else .error .protocol

/-- Status classification of the `except ClientResponseError` handlers:
401/403 map to `SolarwattAuthError`, 404 to `e404` (which differs between
the three fetch operations), anything else to `SolarwattConnectionError`. -/
def classifyStatusErr (e404 : SwErr) (s : ℕ) : SwErr :=
  if s = 401 ∨ s = 403 then .auth else if s = 404 then e404 else .conn

/-- The shared re-login-and-retry block of the fetch operations: one
`async_login` (whose typed failure propagates), then one retried GET whose
final status is classified by `raise_for_status` and the `except` clauses,
then `_ensure_json`. -/
def retryBlock (e404 : SwErr) (loginRetry : Option SwErr) (r2v : RespOrFail)
    (eLogins : ℕ) : FetchOut :=
  match loginRetry with
  | some e => { result := .error e, ensureLogins := eLogins, retryLogins := 1, requests := 1 }
  | none =>
    match r2v with
    | .fail => { result := .error .conn, ensureLogins := eLogins, retryLogins := 1, requests := 2 }
    | .resp r2 =>
      if 400 ≤ r2.status then
        { result := .error (classifyStatusErr e404 r2.status),
          ensureLogins := eLogins, retryLogins := 1, requests := 2 }
      else
        { result := ensure_json r2, ensureLogins := eLogins, retryLogins := 1, requests := 2 }

/-- Main body of a fetch operation after `_ensure_session`: issue the GET;
on 401 re-login and retry once; on a non-2xx status classify via
`raise_for_status` plus the `except` clauses; on a `text/html` content
type re-login and retry once; otherwise `_ensure_json`. -/
def fetchMain (e404 : SwErr) (env : FetchEnv) (eLogins : ℕ) : FetchOut :=
  match env.r1 with
  | .fail => { result := .error .conn, ensureLogins := eLogins, retryLogins := 0, requests := 1 }
  | .resp r1 =>
    if r1.status = 401 then retryBlock e404 env.loginRetry env.r2 eLogins
    else if 400 ≤ r1.status then
      { result := .error (classifyStatusErr e404 r1.status),
        ensureLogins := eLogins, retryLogins := 0, requests := 1 }
    else if ctHasHtml r1.contentType then retryBlock e404 env.loginRetry env.r2 eLogins
    else
      { result := ensure_json r1, ensureLogins := eLogins, retryLogins := 0, requests := 1 }

/-- Common shape of `async_get_items` / `async_get_things` /
`async_get_item`: `_ensure_session` (a login when the session is stale,
whose failure propagates before any request), then `fetchMain`.  The three
operations differ only in how a 404 on the final response is classified. -/
def fetchOp (e404 : SwErr) (env : FetchEnv) : FetchOut :=
  if env.fresh then fetchMain e404 env 0
  else
    match env.loginEnsure with
    | some e => { result := .error e, ensureLogins := 1, retryLogins := 0, requests := 0 }
    | none => fetchMain e404 env 1

/-- `SOLARWATTClient.async_get_items`: 404 raises
`SolarwattNotManagerError("Items endpoint not found")`. -/
def async_get_items (env : FetchEnv) : FetchOut := fetchOp .notManager env

/-- `SOLARWATTClient.async_get_things`: 404 raises
`SolarwattProtocolError("Things endpoint not found")`. -/
def async_get_things (env : FetchEnv) : FetchOut := fetchOp .protocol env

/-- `SOLARWATTClient.async_get_item`: 404 raises
`SolarwattNotManagerError("Items endpoint not found")`. -/
def async_get_item (env : FetchEnv) : FetchOut := fetchOp .notManager env

end Solarwatt

namespace Solarwatt

/-! ## `SOLARWATTCoordinator`: snapshot construction and inventory refresh -/

/-- The fields of one raw item JSON record consumed by
`_async_update_data`; `none` models an absent key (as distinguished by
`dict.get`). -/
structure JItem : Type where
  name : Option String := none
  state : Option String := none
  typ : Option String := none
  editable : Option Bool := none
  label : Option String := none
  category : Option String := none
  groupNames : Option (List String) := none
deriving DecidableEq, Repr

/-- `coordinator.SOLARWATTItem`. -/
structure SWItem : Type where
  name : String
  raw : JItem
  parsed : ParsedState
  oh_type : Option String
  editable : Bool
  label : Option String
  category : Option String
  group_names : Option (List String)
deriving DecidableEq, Repr

/-- `_to_item` of `_async_update_data`; `bool(it.get("editable"))` is
`false` for an absent key. -/
def to_item (name : String) (it : JItem) : SWItem :=
  { name := name, raw := it, parsed := parse_state it.state, oh_type := it.typ
  , editable := it.editable.getD false, label := it.label
  , category := it.category, group_names := it.groupNames }

/-- The key chosen for the item at index `idx`:
`it.get("name", f"unknown_{idx}")`. -/
def keyOf (idx : ℕ) (it : JItem) : String :=
  it.name.getD ("unknown_" ++ Nat.repr idx)

/-- Python-dict assignment `out[k] = v` on an insertion-ordered
association list: replace in place when the key exists, append otherwise. -/
def updAssoc {β : Type} : List (String × β) → String → β → List (String × β)
  | [], k, v => [(k, v)]
  | (k0, v0) :: rest, k, v =>
    if k0 = k then (k0, v) :: rest else (k0, v0) :: updAssoc rest k v

/-- The `for idx, it in enumerate(items)` loop of `_async_update_data`. -/
def buildSnapGo (i : ℕ) (l : List JItem) (acc : List (String × SWItem)) :
    List (String × SWItem) :=
  match l with
  | [] => acc
  | it :: rest => buildSnapGo (i + 1) rest (updAssoc acc (keyOf i it) (to_item (keyOf i it) it))

/-- `SOLARWATTCoordinator._async_update_data` applied to the fetched item
list: the snapshot as an insertion-ordered dict. -/
def update_data (items : List JItem) : List (String × SWItem) :=
  buildSnapGo 0 items []

/-- The fields of one raw "thing" record used for keying the inventory. -/
structure ThingR : Type where
  bigUID : Option String := none
  smallUid : Option String := none
  label : Option String := none
deriving DecidableEq, Repr

/-- Python truthiness filter for the `or`-chain on optional strings
(an empty string is falsy). -/
def truthy (o : Option String) : Option String :=
  match o with
  | some s => if s = "" then none else some s
  | none => none

/-- `thing.get("UID") or thing.get("uid") or f"unknown_{idx}"`. -/
def uidOf (idx : ℕ) (t : ThingR) : String :=
  ((truthy t.bigUID).getD ((truthy t.smallUid).getD ("unknown_" ++ Nat.repr idx)))

/-- The `for idx, thing in enumerate(things or [])` loop of
`async_refresh_things`. -/
def buildThingsGo (i : ℕ) (l : List ThingR) (acc : List (String × ThingR)) :
    List (String × ThingR) :=
  match l with
  | [] => acc
  | t :: rest => buildThingsGo (i + 1) rest (updAssoc acc (uidOf i t) t)

/-- `SOLARWATTCoordinator.async_refresh_things` as a function of the
cached inventory and the outcome of `async_get_things`: every error
(typed `SolarwattError` or any other exception, both caught and logged)
leaves the cache unchanged; a successful fetch (whose body may be JSON
`null`, hence the `Option`, mirroring `things or []`) replaces it
wholesale. -/
def async_refresh_things (cur : List (String × ThingR))
    (res : Except SwErr (Option (List ThingR))) : List (String × ThingR) :=
  match res with
  | .error _ => cur
  | .ok othings => buildThingsGo 0 (othings.getD []) []

/-- Last item (with its index) among `l`, starting at index `i`, whose
key equals `k` — the record that wins the dict assignment race. -/
def lastWithKey (i : ℕ) (l : List JItem) (k : String) : Option (ℕ × JItem) :=
  match l with
  | [] => none
  | it :: rest =>
    match lastWithKey (i + 1) rest k with
    | some r => some r
    | none => if keyOf i it = k then some (i, it) else none

end Solarwatt

namespace Solarwatt

/-! ## Helper lemmas -/

lemma rhe_intCast (m : ℤ) : rhe ((m : ℚ)) = m := by
  rw [rhe, Int.floor_intCast]
  rw [sub_self, if_neg (by norm_num)]
  exact round_intCast m

lemma roundTo_of_cast (n : ℕ) (q : ℚ) (m : ℤ) (h : q * 10 ^ n = (m : ℚ)) :
    roundTo n q = (m : ℚ) / 10 ^ n := by
  rw [roundTo, h, rhe_intCast]

lemma narrowVal_intCast (m : ℤ) : narrowVal ((m : ℚ)) = .vint m := by
  rw [narrowVal, if_pos (Rat.den_intCast m), Rat.num_intCast]

lemma mkNum_nat (ids : List Char) : mkNum 1 ids [] 1 [] = (digitsToNat ids : ℚ) := by
  have h : digitsToNat ([] : List Char) = 0 := rfl
  rw [mkNum, h]
  simp [pow10]

lemma unitApply_W (v : ℚ) :
    unitApply v (some "W".data) =
      { value := narrowVal (roundTo 2 v), unit := some "W" } := rfl

lemma unitApply_Ws (v : ℚ) :
    unitApply v (some "Ws".data) =
      { value := narrowVal (roundTo 3 (v / 3600 / 1000)), unit := some "kWh" } := rfl

lemma unitApply_kWh (v : ℚ) :
    unitApply v (some "kWh".data) =
      { value := narrowVal (roundTo 3 v), unit := some "kWh" } := rfl

end Solarwatt

namespace Solarwatt

/-! ## Claim C1: end-to-end scenario for the kiwigrid power_in item -/

/-- C1: for the raw item named
`#kiwigrid_location_standard_ABC123_harmonized_power_in` with state
`"1500 W"` and empty type hint: `normalize_item_name` yields
`kiwigrid_power_in`; `parse_state` yields the numeric value 1500 with unit
`W`; `guess_ha_meta` classifies it as POWER with measurement (instant)
state class; and `is_enabled_by_default` on the raw identifier is true. -/
theorem c1_end_to_end :
    normalize_item_name "#kiwigrid_location_standard_ABC123_harmonized_power_in"
      = "kiwigrid_power_in"
    ∧ parse_state (some "1500 W") = { value := .vint 1500, unit := some "W" }
    ∧ (guess_ha_meta (some "") { value := .vint 1500, unit := some "W" }
        (some "kiwigrid_power_in")).device_class = some .power
    ∧ (guess_ha_meta (some "") { value := .vint 1500, unit := some "W" }
        (some "kiwigrid_power_in")).state_class = some .measurement
    ∧ is_enabled_by_default "#kiwigrid_location_standard_ABC123_harmonized_power_in"
      = true := by
  refine ⟨rfl, ?_, rfl, rfl, rfl⟩
  have h : parse_state (some "1500 W")
      = unitApply (mkNum 1 "1500".data [] 1 []) (some "W".data) := rfl
  rw [h, unitApply_W, mkNum_nat]
  have hd : digitsToNat "1500".data = 1500 := rfl
  rw [hd]
  have hr : roundTo 2 ((1500 : ℕ) : ℚ) = ((1500 : ℤ) : ℚ) := by
    rw [roundTo_of_cast 2 _ 150000 (by norm_num)]
    norm_num
  rw [hr, narrowVal_intCast]

/-! ## Claim C7: inventory refresh failures are a no-op -/

/-- C7: every failure of `async_refresh_things` (any typed error or other
exception, all caught) returns normally and leaves the cached inventory
unchanged; the cache is replaced only by the result of a fully successful
fetch. -/
theorem c7_refresh_things_failure_noop :
    (∀ (cur : List (String × ThingR)) (e : SwErr),
      async_refresh_things cur (.error e) = cur)
    ∧ (∀ (cur : List (String × ThingR)) (l : Option (List ThingR)),
      async_refresh_things cur (.ok l) = buildThingsGo 0 (l.getD []) []) :=
  ⟨fun _ _ => rfl, fun _ _ => rfl⟩

/-! ## Claim C9: session freshness threshold -/

/-- C9 counterexample: with `now - lastLogin` exactly equal to the 900 s
ttl the session is stale under the claimed strict `<` freshness criterion,
yet `_ensure_session` does not trigger a login (the code tests
`now - last > ttl`). -/
theorem c9_counterexample :
    ensure_login_needed 900 0 = false ∧ ¬ ((900 : ℚ) - 0 < session_ttl) := by
  constructor
  · rw [ensure_login_needed, decide_eq_false_iff_not]
    norm_num [session_ttl]
  · norm_num [session_ttl]

lemma retryBlock_ensureLogins (e404 : SwErr) (lr : Option SwErr) (r2v : RespOrFail) (k : ℕ) :
    (retryBlock e404 lr r2v k).ensureLogins = k := by
  unfold retryBlock
  split
  · rfl
  · split
    · rfl
    · split <;> rfl

lemma fetchMain_ensureLogins (e404 : SwErr) (env : FetchEnv) (k : ℕ) :
    (fetchMain e404 env k).ensureLogins = k := by
  unfold fetchMain
  split
  · rfl
  · split
    · exact retryBlock_ensureLogins e404 env.loginRetry env.r2 k
    · split
      · rfl
      · split
        · exact retryBlock_ensureLogins e404 env.loginRetry env.r2 k
        · rfl

/-- C9 (amended): the session counts as fresh exactly while
`now - lastLogin ≤ 900` (boundary inclusive); `_ensure_session` triggers a
login precisely when this fails, and each fetch operation performs that
login exactly when the session is stale. -/
theorem c9_session_ttl_amended :
    (∀ now lastLogin : ℚ,
      ensure_login_needed now lastLogin = false ↔ now - lastLogin ≤ session_ttl)
    ∧ session_ttl = 900
    ∧ (∀ (e404 : SwErr) (env : FetchEnv),
      (fetchOp e404 env).ensureLogins = if env.fresh then 0 else 1) := by
  refine ⟨?_, rfl, ?_⟩
  · intro now lastLogin
    rw [ensure_login_needed, decide_eq_false_iff_not, not_lt]
  · intro e404 env
    cases hf : env.fresh
    · cases hle : env.loginEnsure
      · simp [fetchOp, hf, hle, fetchMain_ensureLogins]
      · simp [fetchOp, hf, hle]
    · simp [fetchOp, hf, fetchMain_ensureLogins]

end Solarwatt

namespace Solarwatt

/-! ## Claim C3: login succeeds only with a session credential -/

/-- C3 counterexample: when a session cookie is still stored from an
earlier login, a 200 login response that yields no credential at all
(no structured cookie, no `Set-Cookie` header) nevertheless succeeds and
records the timestamp, instead of raising `AuthError` as claimed. -/
theorem c3_counterexample :
    async_login 5 { kiwi := some "kiwisessionid=old", lastLogin := 0 }
        { status := 200, cookieKiwi := none, setCookie := [] }
      = .ok { kiwi := some "kiwisessionid=old", lastLogin := 5 }
    ∧ scanSetCookie [] = none := ⟨rfl, rfl⟩

/-- C3 (amended): when no credential is retained from an earlier login, a
200/303 login response yielding no session credential makes `async_login`
raise `AuthError`; and on every successful return a credential is present
and the login timestamp is set to the current time. -/
theorem c3_login_credential_amended :
    (∀ (now : ℚ) (st : SessState) (r : LoginResp),
      st.kiwi = none → (r.status = 200 ∨ r.status = 303) → r.cookieKiwi = none →
      scanSetCookie r.setCookie = none → async_login now st r = .error .auth)
    ∧ (∀ (now : ℚ) (st : SessState) (r : LoginResp) (st' : SessState),
      async_login now st r = .ok st' → st'.kiwi ≠ none ∧ st'.lastLogin = now) := by
  constructor
  · intro now st r hk hs hc hscan
    have hcond : ¬ (r.status ≠ 200 ∧ r.status ≠ 303) := by
      rcases hs with h | h <;> simp [h]
    have hext : extractKiwi st r = none := by
      rw [extractKiwi, hc, hk, hscan]
    rw [async_login, if_neg hcond, hext]
  · intro now st r st' h
    rw [async_login] at h
    by_cases hcond : r.status ≠ 200 ∧ r.status ≠ 303
    · rw [if_pos hcond] at h
      exact absurd h (by simp)
    · rw [if_neg hcond] at h
      rcases hk2 : extractKiwi st r with _ | k
      · rw [hk2] at h
        exact absurd h (by simp)
      · rw [hk2] at h
        have h' : st' = { kiwi := some k, lastLogin := now } := by
          injection h with h'
          exact h'.symm
        subst h'
        exact ⟨by simp, rfl⟩

/-- C3 witness: the amended theorem applied at a fresh client state and a
credential-less 200 response. -/
theorem c3_witness :
    async_login 7 { kiwi := none, lastLogin := 0 }
        { status := 200, cookieKiwi := none, setCookie := [] } = .error .auth :=
  c3_login_credential_amended.1 7 _ _ rfl (Or.inl rfl) rfl rfl

end Solarwatt


namespace Solarwatt

/-! ## Claims C2 and C6: fetch-layer retry protocol and error classification -/

/-- Retry behaviour claimed for one fetch operation `f` whose final-404
error is `e404`: a first response that is a 401, or a non-error status
whose content type contains `text/html`, leads to exactly one re-login and
exactly one retried request; a failure of the retried request (or of the
re-login itself) propagates without any further retry; and no call ever
performs more than one re-login. -/
def retryOnceSpec (f : FetchEnv → FetchOut) (e404 : SwErr) : Prop :=
  (∀ (env : FetchEnv) (r1 : HttpResp),
    env.fresh = true → env.r1 = .resp r1 →
    (r1.status = 401 ∨ (r1.status < 400 ∧ ctHasHtml r1.contentType = true)) →
      ((env.loginRetry = none →
          (f env).retryLogins = 1 ∧ (f env).requests = 2
          ∧ (env.r2 = .fail → (f env).result = .error .conn)
          ∧ (∀ r2 : HttpResp, env.r2 = .resp r2 → 400 ≤ r2.status →
              (f env).result = .error (classifyStatusErr e404 r2.status)))
       ∧ (∀ e : SwErr, env.loginRetry = some e →
            (f env).result = .error e ∧ (f env).retryLogins = 1 ∧ (f env).requests = 1)))
  ∧ (∀ env : FetchEnv, (f env).retryLogins ≤ 1)

lemma retryBlock_retryLogins (e404 : SwErr) (lr : Option SwErr) (r2v : RespOrFail) (k : ℕ) :
    (retryBlock e404 lr r2v k).retryLogins = 1 := by
  unfold retryBlock
  split
  · rfl
  · split
    · rfl
    · split <;> rfl

lemma fetchMain_retryLogins_le (e404 : SwErr) (env : FetchEnv) (k : ℕ) :
    (fetchMain e404 env k).retryLogins ≤ 1 := by
  unfold fetchMain
  split
  · exact Nat.zero_le 1
  · split
    · exact Nat.le_of_eq (retryBlock_retryLogins e404 env.loginRetry env.r2 k)
    · split
      · exact Nat.zero_le 1
      · split
        · exact Nat.le_of_eq (retryBlock_retryLogins e404 env.loginRetry env.r2 k)
        · exact Nat.zero_le 1

lemma fetchOp_to_retryBlock (e404 : SwErr) (env : FetchEnv) (r1 : HttpResp)
    (hf : env.fresh = true) (hr1 : env.r1 = .resp r1)
    (hcase : r1.status = 401 ∨ (r1.status < 400 ∧ ctHasHtml r1.contentType = true)) :
    fetchOp e404 env = retryBlock e404 env.loginRetry env.r2 0 := by
  rcases hcase with h401 | ⟨hlt, hhtml⟩
  · simp [fetchOp, fetchMain, hf, hr1, h401]
  · have h1 : r1.status ≠ 401 := by omega
    have h2 : ¬ 400 ≤ r1.status := by omega
    simp [fetchOp, fetchMain, hf, hr1, h1, h2, hhtml]

lemma retryBlock_none_requests (e404 : SwErr) (r2v : RespOrFail) (k : ℕ) :
    (retryBlock e404 none r2v k).requests = 2 := by
  cases r2v
  · rfl
  · simp only [retryBlock]
    split <;> rfl

lemma fetchOp_retryOnce (e404 : SwErr) : retryOnceSpec (fetchOp e404) e404 := by
  constructor
  · intro env r1 hf hr1 hcase
    have hmain := fetchOp_to_retryBlock e404 env r1 hf hr1 hcase
    constructor
    · intro hlr
      rw [hmain, hlr]
      rcases hr2 : env.r2 with _ | r2
      · exact ⟨rfl, rfl, fun _ => rfl, fun r2' h2' => by cases h2'⟩
      · refine ⟨retryBlock_retryLogins e404 none (.resp r2) 0,
          retryBlock_none_requests e404 (.resp r2) 0, ?_, ?_⟩
        · intro hfail
          cases hfail
        · intro r2' h2' hge
          injection h2' with h2'
          subst h2'
          simp only [retryBlock]
          rw [if_pos hge]
    · intro e hlr
      rw [hmain, hlr]
      exact ⟨rfl, rfl, rfl⟩
  · intro env
    unfold fetchOp
    split
    · exact fetchMain_retryLogins_le e404 env 0
    · split
      · exact Nat.zero_le 1
      · exact fetchMain_retryLogins_le e404 env 1

/-- C2 counterexample: a first response with status 200 and the non-JSON,
non-HTML content type `text/plain` triggers no re-login at all — the call
raises `SolarwattProtocolError` directly — contradicting the claim that
every non-JSON 200 response causes exactly one re-login and retry. -/
theorem c2_counterexample :
    (async_get_items { fresh := true, loginEnsure := none
                     , r1 := .resp { status := 200, contentType := "text/plain", body := "x" }
                     , loginRetry := none, r2 := .fail }).retryLogins = 0
    ∧ (async_get_items { fresh := true, loginEnsure := none
                       , r1 := .resp { status := 200, contentType := "text/plain", body := "x" }
                       , loginRetry := none, r2 := .fail }).result = .error .protocol
    ∧ ctHasJson "text/plain" = false := ⟨rfl, rfl, rfl⟩

/-- C2 (amended): for each fetch operation, a first response that is a 401
or has a (non-error) status with a content type containing `text/html`
leads to exactly one re-login and one retried request, whose failure
propagates without further retries; at most one re-login happens per call.
A 200 response whose content type is neither JSON nor HTML raises
`ProtocolError` without any re-login (see the counterexample). -/
theorem c2_retry_protocol_amended :
    retryOnceSpec async_get_items .notManager
    ∧ retryOnceSpec async_get_things .protocol
    ∧ retryOnceSpec async_get_item .notManager :=
  ⟨fetchOp_retryOnce .notManager, fetchOp_retryOnce .protocol, fetchOp_retryOnce .notManager⟩

/-- C2 witness: the amended theorem at a concrete 401-then-500 environment:
one re-login, two requests, and the retried failure is surfaced as a
connection error. -/
theorem c2_witness :
    (async_get_items { fresh := true, loginEnsure := none
                     , r1 := .resp { status := 401, contentType := "", body := "" }
                     , loginRetry := none
                     , r2 := .resp { status := 500, contentType := "", body := "" } }).retryLogins = 1
    ∧ (async_get_items { fresh := true, loginEnsure := none
                       , r1 := .resp { status := 401, contentType := "", body := "" }
                       , loginRetry := none
                       , r2 := .resp { status := 500, contentType := "", body := "" } }).requests = 2
    ∧ (async_get_items { fresh := true, loginEnsure := none
                       , r1 := .resp { status := 401, contentType := "", body := "" }
                       , loginRetry := none
                       , r2 := .resp { status := 500, contentType := "", body := "" } }).result
        = .error (classifyStatusErr .notManager 500) := by
  have h := (c2_retry_protocol_amended.1.1
    { fresh := true, loginEnsure := none
    , r1 := .resp { status := 401, contentType := "", body := "" }
    , loginRetry := none
    , r2 := .resp { status := 500, contentType := "", body := "" } }
    { status := 401, contentType := "", body := "" }
    rfl rfl (Or.inl rfl)).1 rfl
  exact ⟨h.1, h.2.1,
    h.2.2.2 { status := 500, contentType := "", body := "" } rfl (by norm_num)⟩

/-- Final-response status classification claimed for one fetch operation
`f` with 404 error `e404`: transport failures and, after a 401-retry, a
failed second request map to `ConnectionError`; 401/403 map to
`AuthError`; 404 maps to `e404`; any other status of 400 or above maps to
`ConnectionError` (all via `classifyStatusErr`). -/
def classifySpec (f : FetchEnv → FetchOut) (e404 : SwErr) : Prop :=
  ∀ env : FetchEnv, env.fresh = true →
    ((env.r1 = .fail → (f env).result = .error .conn)
     ∧ (∀ r1 : HttpResp, env.r1 = .resp r1 → 400 ≤ r1.status → r1.status ≠ 401 →
         (f env).result = .error (classifyStatusErr e404 r1.status))
     ∧ (∀ r1 : HttpResp, env.r1 = .resp r1 → r1.status = 401 → env.loginRetry = none →
         ((env.r2 = .fail → (f env).result = .error .conn)
          ∧ (∀ r2 : HttpResp, env.r2 = .resp r2 → 400 ≤ r2.status →
              (f env).result = .error (classifyStatusErr e404 r2.status)))))

lemma fetchOp_classify (e404 : SwErr) : classifySpec (fetchOp e404) e404 := by
  intro env hf
  refine ⟨?_, ?_, ?_⟩
  · intro h1
    simp [fetchOp, fetchMain, hf, h1]
  · intro r1 h1 hge h401
    simp [fetchOp, fetchMain, hf, h1, h401, hge]
  · intro r1 h1 h401 hlr
    have hmain := fetchOp_to_retryBlock e404 env r1 hf h1 (Or.inl h401)
    constructor
    · intro h2
      rw [hmain, hlr, h2]
      rfl
    · intro r2 h2 hge
      rw [hmain, hlr, h2]
      simp only [retryBlock]
      rw [if_pos hge]

/-- C6 counterexample: a 404 on `async_get_things` raises
`SolarwattProtocolError` ("Things endpoint not found"), not the claimed
`SolarwattNotManagerError`. -/
theorem c6_counterexample :
    (async_get_things { fresh := true, loginEnsure := none
                      , r1 := .resp { status := 404, contentType := "", body := "" }
                      , loginRetry := none, r2 := .fail }).result = .error .protocol
    ∧ SwErr.protocol ≠ SwErr.notManager := ⟨rfl, by decide⟩

/-- C6 (amended): on the final response of each fetch operation, 401/403
raise `AuthError`; 404 raises `NotTargetDeviceError` for `async_get_items`
and `async_get_item` but `ProtocolError` for `async_get_things`; any other
status of 400 or above, and every transport or timeout failure, raises
`ConnectionError`. -/
theorem c6_classification_amended :
    classifySpec async_get_items .notManager
    ∧ classifySpec async_get_things .protocol
    ∧ classifySpec async_get_item .notManager
    ∧ (∀ e404 : SwErr, classifyStatusErr e404 401 = .auth ∧ classifyStatusErr e404 403 = .auth
        ∧ classifyStatusErr e404 404 = e404 ∧ classifyStatusErr e404 500 = .conn) :=
  ⟨fetchOp_classify .notManager, fetchOp_classify .protocol, fetchOp_classify .notManager,
   fun _ => ⟨rfl, rfl, rfl, rfl⟩⟩

/-- C6 witness: the amended theorem at concrete environments — a 403 on
the first items request is an auth error, and a 404 on the first things
request is a protocol error. -/
theorem c6_witness :
    (async_get_items { fresh := true, loginEnsure := none
                     , r1 := .resp { status := 403, contentType := "", body := "" }
                     , loginRetry := none, r2 := .fail }).result
      = .error (classifyStatusErr .notManager 403)
    ∧ (async_get_things { fresh := true, loginEnsure := none
                        , r1 := .resp { status := 404, contentType := "", body := "" }
                        , loginRetry := none, r2 := .fail }).result
      = .error (classifyStatusErr .protocol 404) := by
  constructor
  · exact (c6_classification_amended.1 _ rfl).2.1
      { status := 403, contentType := "", body := "" } rfl (by norm_num) (by norm_num)
  · exact (c6_classification_amended.2.1 _ rfl).2.1
      { status := 404, contentType := "", body := "" } rfl (by norm_num) (by norm_num)

end Solarwatt

namespace Solarwatt

/-! ## Claim C8: idempotence of name normalisation -/

lemma segRuleApply_shape (lit1 lit2 repl cs out : List Char)
    (h : segRuleApply lit1 lit2 repl cs = some out) : ∃ t, out = repl ++ t := by
  rw [segRuleApply, Option.bind_eq_some] at h
  obtain ⟨r, _, h2⟩ := h
  by_cases hseg : r.takeWhile (fun c => c ≠ '_') = []
  · rw [if_pos hseg] at h2
    cases h2
  · rw [if_neg hseg, Option.map_eq_some'] at h2
    obtain ⟨rest, _, hout⟩ := h2
    exact ⟨rest, hout.symm⟩

lemma mystromApply_shape (cs out : List Char) (h : mystromApply cs = some out) :
    ∃ t, out = "mystrom_".data ++ t := by
  rw [mystromApply, Option.bind_eq_some] at h
  obtain ⟨r, _, h2⟩ := h
  by_cases hseg : r.takeWhile (fun c => c ≠ '_') = []
  · rw [if_pos hseg] at h2
    cases h2
  · rw [if_neg hseg, Option.map_eq_some'] at h2
    obtain ⟨rest, _, hout⟩ := h2
    exact ⟨_, hout.symm⟩

lemma kacoApply_shape (cs out : List Char) (h : kacoApply cs = some out) :
    ∃ t, out = "kacoinv_".data ++ t := by
  rw [kacoApply, Option.bind_eq_some] at h
  obtain ⟨r, _, h2⟩ := h
  rw [Option.map_eq_some'] at h2
  obtain ⟨rest, _, hout⟩ := h2
  exact ⟨rest, hout.symm⟩

/-- Every rule's rewrite output starts with its (non-`#`) replacement
text, so a rewritten name never starts with `#`. -/
lemma applyNRule_head_mem (r : NRule) (hr : r ∈ NORMALIZATION_RULES)
    (cs out : List Char) (h : applyNRule r cs = some out) : out.head? ≠ some '#' := by
  fin_cases hr <;> simp only [applyNRule] at h
  case «5» =>
    obtain ⟨t, rfl⟩ := mystromApply_shape _ _ h
    simp
  case «15» =>
    obtain ⟨t, rfl⟩ := kacoApply_shape _ _ h
    simp
  all_goals
    obtain ⟨t, rfl⟩ := segRuleApply_shape _ _ _ _ _ h
  all_goals simp

lemma foldl_rules_head (rs : List NRule) (hmem : ∀ r ∈ rs, r ∈ NORMALIZATION_RULES) :
    ∀ a : List Char, a.head? ≠ some '#' →
    (rs.foldl (fun a r => (applyNRule r a).getD a) a).head? ≠ some '#' := by
  induction rs with
  | nil => exact fun a ha => ha
  | cons r rest ih =>
    intro a ha
    rw [List.foldl_cons]
    refine ih (fun r' h' => hmem r' (List.mem_cons_of_mem r h')) _ ?_
    rcases happ : applyNRule r a with _ | out
    · simpa [happ] using ha
    · simpa [happ] using
        applyNRule_head_mem r (hmem r (List.mem_cons_self r rest)) a out happ

lemma head_dropWhile_hash (cs : List Char) :
    (cs.dropWhile (fun c => c = '#')).head? ≠ some '#' := by
  induction cs with
  | nil => simp [List.dropWhile]
  | cons c rest ih =>
    by_cases hc : c = '#'
    · simpa [List.dropWhile_cons, hc] using ih
    · simp [List.dropWhile_cons, hc]

lemma dropWhile_hash_of_head (l : List Char) (h : l.head? ≠ some '#') :
    l.dropWhile (fun c => c = '#') = l := by
  cases l with
  | nil => rfl
  | cons c rest =>
    have hc : ¬ (c = '#') := fun hc => h (by rw [hc]; rfl)
    simp [List.dropWhile_cons, hc]

lemma foldl_rules_id (rs : List NRule) :
    ∀ y : List Char, (∀ r ∈ rs, applyNRule r y = none) →
    rs.foldl (fun a r => (applyNRule r a).getD a) y = y := by
  induction rs with
  | nil => exact fun y _ => rfl
  | cons r rest ih =>
    intro y h
    rw [List.foldl_cons, h r (List.mem_cons_self r rest), Option.getD_none]
    exact ih y fun r' h' => h r' (List.mem_cons_of_mem r h')

set_option maxRecDepth 8000 in
set_option maxHeartbeats 1000000 in
/-- C8 counterexample: normalisation is not idempotent.  The keba rule's
output can match the keba rule again: one pass sends
`keba_wallbox_A_wallbox_B_c` to `keba_wallbox_B_c`, and a second pass
rewrites that to `keba_c`. -/
theorem c8_counterexample :
    normalize_item_name (normalize_item_name "keba_wallbox_A_wallbox_B_c")
      ≠ normalize_item_name "keba_wallbox_A_wallbox_B_c" := by decide

lemma normalizeChars_fixed (y : List Char) (hy : y.head? ≠ some '#')
    (h : ∀ r ∈ NORMALIZATION_RULES, applyNRule r y = none) : normalizeChars y = y := by
  rw [normalizeChars, dropWhile_hash_of_head y hy]
  exact foldl_rules_id _ _ h

lemma nin_def (s : String) : normalize_item_name s = String.mk (normalizeChars s.data) := by
  rw [normalize_item_name]

lemma nin_data (s : String) : (normalize_item_name s).data = normalizeChars s.data := by
  rw [nin_def s]

/-- C8 (amended): normalisation is idempotent on every identifier whose
normalised form is not matched by any normalisation rule (the situation
for all ordinary identifiers; the counterexample shows the general claim
fails when a rule's output matches a rule again). -/
theorem c8_normalize_idempotent_amended (x : String)
    (h : ∀ r ∈ NORMALIZATION_RULES, applyNRule r (normalizeChars x.data) = none) :
    normalize_item_name (normalize_item_name x) = normalize_item_name x := by
  have hy : (normalizeChars x.data).head? ≠ some '#' := by
    rw [normalizeChars]
    exact foldl_rules_head _ (fun r hr => hr) _ (head_dropWhile_hash x.data)
  rw [nin_def (normalize_item_name x), nin_data x, normalizeChars_fixed _ hy h, ← nin_def x]

set_option maxRecDepth 8000 in
set_option maxHeartbeats 1000000 in
/-- C8 witness: the amended idempotence theorem applied to the kiwigrid
sample identifier, whose normalised form matches no rule. -/
theorem c8_witness :
    normalize_item_name
        (normalize_item_name "#kiwigrid_location_standard_ABC123_harmonized_power_in")
      = normalize_item_name "#kiwigrid_location_standard_ABC123_harmonized_power_in" :=
  c8_normalize_idempotent_amended _ (by decide)

end Solarwatt


namespace Solarwatt

/-! ## Claim C10: snapshot keying and duplicate handling -/

lemma lookup_updAssoc {β : Type} (m : List (String × β)) (k k' : String) (v : β) :
    List.lookup k' (updAssoc m k v) = if k' = k then some v else List.lookup k' m := by
  induction m with
  | nil =>
    by_cases h : k' = k
    · subst h
      simp [updAssoc, List.lookup]
    · have hb : (k' == k) = false := beq_eq_false_iff_ne.mpr h
      simp [updAssoc, List.lookup, hb, h]
  | cons p rest ih =>
    obtain ⟨k0, v0⟩ := p
    rw [updAssoc]
    by_cases h0 : k0 = k
    · subst h0
      by_cases h' : k' = k0
      · subst h'
        simp [List.lookup]
      · have hb : (k' == k0) = false := beq_eq_false_iff_ne.mpr h'
        simp [List.lookup, hb, h']
    · rw [if_neg h0]
      by_cases h' : k' = k0
      · subst h'
        simp [List.lookup, h0]
      · have hb : (k' == k0) = false := beq_eq_false_iff_ne.mpr h'
        by_cases hk : k' = k
        · subst hk
          simp [List.lookup, hb, ih]
        · simp [List.lookup, hb, ih, hk]

lemma buildSnapGo_lookup (l : List JItem) : ∀ (i : ℕ) (acc : List (String × SWItem)) (k : String),
    List.lookup k (buildSnapGo i l acc) =
      (match lastWithKey i l k with
       | some p => some (to_item k p.2)
       | none => List.lookup k acc) := by
  induction l with
  | nil =>
    intro i acc k
    rfl
  | cons it rest ih =>
    intro i acc k
    simp only [buildSnapGo, lastWithKey]
    rw [ih]
    rcases hl : lastWithKey (i + 1) rest k with _ | p
    · rw [lookup_updAssoc]
      by_cases hk : keyOf i it = k
      · rw [if_pos hk, if_pos hk.symm, hk]
      · rw [if_neg hk, if_neg (fun h => hk h.symm)]
    · rfl

lemma mem_keys_updAssoc {β : Type} (m : List (String × β)) (k x : String) (v : β) :
    x ∈ (updAssoc m k v).map Prod.fst ↔ x ∈ m.map Prod.fst ∨ x = k := by
  induction m with
  | nil => simp [updAssoc]
  | cons p rest ih =>
    obtain ⟨k0, v0⟩ := p
    by_cases h0 : k0 = k
    · subst h0
      simp [updAssoc]
      tauto
    · rw [updAssoc, if_neg h0]
      simp [ih]
      tauto

lemma nodup_keys_updAssoc {β : Type} (m : List (String × β)) (k : String) (v : β)
    (h : (m.map Prod.fst).Nodup) : ((updAssoc m k v).map Prod.fst).Nodup := by
  induction m with
  | nil => simp [updAssoc]
  | cons p rest ih =>
    obtain ⟨k0, v0⟩ := p
    rw [List.map_cons, List.nodup_cons] at h
    by_cases h0 : k0 = k
    · subst h0
      rw [updAssoc, if_pos rfl]
      rw [List.map_cons, List.nodup_cons]
      exact h
    · rw [updAssoc, if_neg h0, List.map_cons, List.nodup_cons]
      refine ⟨?_, ih h.2⟩
      intro hmem
      rcases (mem_keys_updAssoc rest k k0 v).1 hmem with h1 | h1
      · exact h.1 h1
      · exact h0 h1

lemma buildSnapGo_nodup (l : List JItem) : ∀ (i : ℕ) (acc : List (String × SWItem)),
    (acc.map Prod.fst).Nodup → ((buildSnapGo i l acc).map Prod.fst).Nodup := by
  induction l with
  | nil => exact fun i acc h => h
  | cons it rest ih =>
    intro i acc h
    exact ih _ _ (nodup_keys_updAssoc _ _ _ h)

/-- C10: in every snapshot built by `_async_update_data`, an item without
a `name` field is keyed `unknown_<index>`; looking up any key yields the
normalised record of the last fetched item with that key (later items
replace earlier ones); and the snapshot holds exactly one entry per
distinct key. -/
theorem c10_snapshot_keys :
    (∀ (i : ℕ) (it : JItem), it.name = none → keyOf i it = "unknown_" ++ Nat.repr i)
    ∧ (∀ (items : List JItem) (k : String),
        List.lookup k (update_data items) =
          (match lastWithKey 0 items k with
           | some p => some (to_item k p.2)
           | none => none))
    ∧ (∀ items : List JItem, ((update_data items).map Prod.fst).Nodup) := by
  refine ⟨?_, ?_, ?_⟩
  · intro i it h
    rw [keyOf, h]
    rfl
  · intro items k
    rw [update_data, buildSnapGo_lookup]
    rcases lastWithKey 0 items k with _ | p <;> rfl
  · intro items
    exact buildSnapGo_nodup items 0 [] (by simp)

/-- C10 witness: the keying rule applied at index 3 to a record without a
name field. -/
theorem c10_witness :
    keyOf 3 { } = "unknown_" ++ Nat.repr 3 :=
  c10_snapshot_keys.1 3 { } rfl

end Solarwatt

namespace Solarwatt

/-! ## Parser support lemmas (for claims C4 and C5) -/

lemma length_dropWhile_le (p : Char → Bool) (l : List Char) :
    (l.dropWhile p).length ≤ l.length := by
  induction l with
  | nil => exact Nat.le_refl 0
  | cons a t ih =>
    rw [List.dropWhile_cons]
    split
    · exact Nat.le_succ_of_le ih
    · exact Nat.le_refl _

lemma pyStripRight_length_le (l : List Char) : (pyStripRight l).length ≤ l.length := by
  rw [pyStripRight, List.length_reverse]
  calc (l.reverse.dropWhile pySpace).length ≤ l.reverse.length :=
        length_dropWhile_le pySpace l.reverse
    _ = l.length := List.length_reverse l

lemma pyStrip_length_le (l : List Char) : (pyStrip l).length ≤ l.length := by
  rw [pyStrip]
  calc (pyStripRight (l.dropWhile pySpace)).length ≤ (l.dropWhile pySpace).length :=
        pyStripRight_length_le _
    _ ≤ l.length := length_dropWhile_le pySpace l

lemma mem_dropWhile_of_mem (p : Char → Bool) (l : List Char) (c : Char)
    (hc : p c = false) (h : c ∈ l) : c ∈ l.dropWhile p := by
  induction l with
  | nil => cases h
  | cons a t ih =>
    rw [List.dropWhile_cons]
    rcases List.mem_cons.1 h with rfl | hmem
    · rw [hc]
      simp
    · split
      · exact ih hmem
      · exact List.mem_cons_of_mem a hmem

lemma mem_pyStrip_of_mem (l : List Char) (c : Char) (hc : pySpace c = false)
    (h : c ∈ l) : c ∈ pyStrip l := by
  rw [pyStrip, pyStripRight, List.mem_reverse]
  exact mem_dropWhile_of_mem pySpace _ c hc
    (List.mem_reverse.2 (mem_dropWhile_of_mem pySpace l c hc h))

/-- The right part of the `timestamp|value` split is strictly shorter than
the input, which justifies the fuel bound of `parseCore`. -/
lemma barRight_length_lt (cs : List Char) (h : '|' ∈ cs) :
    (pyStrip ((cs.dropWhile (fun c => c ≠ '|')).tail)).length < cs.length := by
  have h1 : cs.length ≥ 1 := List.length_pos.2 (List.ne_nil_of_mem h)
  have h2 : ((cs.dropWhile (fun c => c ≠ '|')).tail).length
      = (cs.dropWhile (fun c => c ≠ '|')).length - 1 := List.length_tail _
  have h3 : (cs.dropWhile (fun c => c ≠ '|')).length ≤ cs.length :=
    length_dropWhile_le _ cs
  have h4 := pyStrip_length_le ((cs.dropWhile (fun c => c ≠ '|')).tail)
  omega

/-- The fuel of `parseCore` is irrelevant once it exceeds the input
length. -/
lemma parseCore_irrel (f : ℕ) : ∀ (g : ℕ) (cs : List Char),
    cs.length < f → cs.length < g → parseCore f cs = parseCore g cs := by
  induction f with
  | zero => exact fun g cs hf _ => absurd hf (Nat.not_lt_zero _)
  | succ f ihf =>
    intro g cs hf hg
    cases g with
    | zero => exact absurd hg (Nat.not_lt_zero _)
    | succ g =>
      simp only [parseCore]
      split_ifs with h1 h2 h3 h4 h5
      · rfl
      · rfl
      · rfl
      · have hlt : (pyStrip (((pyStrip cs).dropWhile (fun c => c ≠ '|')).tail)).length
            < (pyStrip cs).length := barRight_length_lt (pyStrip cs) h4
        have hle := pyStrip_length_le cs
        rw [ihf g _ (by omega) (by omega)]
      · have hlt : (pyStrip (((pyStrip cs).dropWhile (fun c => c ≠ '|')).tail)).length
            < (pyStrip cs).length := barRight_length_lt (pyStrip cs) h4
        have hle := pyStrip_length_le cs
        rw [ihf g _ (by omega) (by omega)]
      · rfl

end Solarwatt

namespace Solarwatt

/-! ## Claim C5: the `timestamp|value` encoding -/

/-- Left part of `s.split("|", 1)`, stripped. -/
def barLeft (l : List Char) : List Char := pyStrip (l.takeWhile (fun c => c ≠ '|'))

/-- Right part of `s.split("|", 1)`, stripped. -/
def barRight (l : List Char) : List Char := pyStrip ((l.dropWhile (fun c => c ≠ '|')).tail)

/-- The timestamp attached by the `timestamp|value` branch: the left part
when it is a nonempty digit string (`str.isdigit`). -/
def barTs (l : List Char) : Option ℕ :=
  if barLeft l ≠ [] ∧ (barLeft l).all Char.isDigit then some (digitsToNat (barLeft l)) else none

lemma parse_state_some (s : String) :
    parse_state (some s) = parseCore (s.data.length + 1) s.data := rfl

lemma barRight_length_lt' (cs : List Char) (h : '|' ∈ cs) :
    (barRight cs).length < cs.length := by
  rw [barRight]
  exact barRight_length_lt cs h

lemma parseCore_bar (f : ℕ) (cs : List Char)
    (hN : pyStrip cs ≠ "NULL".data) (hON : pyStrip cs ≠ "ON".data)
    (hOFF : pyStrip cs ≠ "OFF".data) (hbar : '|' ∈ pyStrip cs) :
    parseCore (f + 1) cs =
      { value := (parseCore f (barRight (pyStrip cs))).value
      , unit := (parseCore f (barRight (pyStrip cs))).unit
      , timestamp_ms := barTs (pyStrip cs) } := by
  simp only [parseCore]
  rw [if_neg hN, if_neg hON, if_neg hOFF, if_pos hbar, barTs, barRight, barLeft]

lemma narrowVal_nonint (q : ℚ) (h : q.den ≠ 1) : narrowVal q = .vfloat q := by
  rw [narrowVal, if_neg h]

/-- C5: for every raw state containing `|`, `parse_state` splits on the
first `|`; the (stripped) left side becomes the integer millisecond
timestamp when it is all digits, and the right side is parsed recursively
for value and unit.  Concretely, `parse("12345678|23.5 kWh")` yields value
23.5, unit `kWh` and timestamp 12345678. -/
theorem c5_bar_split :
    (∀ s : String, '|' ∈ s.data →
      parse_state (some s) =
        { value := (parse_state (some (String.mk (barRight (pyStrip s.data))))).value
        , unit := (parse_state (some (String.mk (barRight (pyStrip s.data))))).unit
        , timestamp_ms := barTs (pyStrip s.data) })
    ∧ parse_state (some "12345678|23.5 kWh") =
      { value := .vfloat (47 / 2), unit := some "kWh", timestamp_ms := some 12345678 } := by
  constructor
  · intro s hs
    have hbar : '|' ∈ pyStrip s.data := mem_pyStrip_of_mem s.data '|' (by decide) hs
    have hN : pyStrip s.data ≠ "NULL".data := fun h => by
      rw [h] at hbar
      exact absurd hbar (by decide)
    have hON : pyStrip s.data ≠ "ON".data := fun h => by
      rw [h] at hbar
      exact absurd hbar (by decide)
    have hOFF : pyStrip s.data ≠ "OFF".data := fun h => by
      rw [h] at hbar
      exact absurd hbar (by decide)
    have hmk : (String.mk (barRight (pyStrip s.data))).data = barRight (pyStrip s.data) := rfl
    rw [parse_state_some, parse_state_some, hmk]
    rw [parseCore_bar s.data.length s.data hN hON hOFF hbar]
    have hlt : (barRight (pyStrip s.data)).length < s.data.length :=
      Nat.lt_of_lt_of_le (barRight_length_lt' (pyStrip s.data) hbar) (pyStrip_length_le s.data)
    rw [parseCore_irrel s.data.length ((barRight (pyStrip s.data)).length + 1) _ hlt
      (Nat.lt_succ_self _)]
  · have h1 : parse_state (some "12345678|23.5 kWh") =
        { value := narrowVal (roundTo 3 (mkNum 1 "23".data "5".data 1 []))
        , unit := some "kWh", timestamp_ms := some 12345678 } := rfl
    rw [h1]
    have hmk : mkNum 1 "23".data "5".data 1 [] = 47 / 2 := by
      have e1 : digitsToNat "23".data = 23 := rfl
      have e2 : digitsToNat "5".data = 5 := rfl
      have e3 : digitsToNat ([] : List Char) = 0 := rfl
      rw [mkNum, e1, e2, e3]
      norm_num [pow10]
    have hr : roundTo 3 ((47 : ℚ) / 2) = 47 / 2 := by
      rw [roundTo_of_cast 3 _ 23500 (by norm_num)]
      norm_num
    rw [hmk, hr, narrowVal_nonint _ (by norm_num)]

end Solarwatt

namespace Solarwatt

/-! ## Claim C4: the Ws -> Wh -> kWh pipeline -/

lemma pySpace_eq_false_of_isDigit (c : Char) (h : c.isDigit = true) : pySpace c = false := by
  have h1 : ¬ (c = ' ') := fun e => by subst e; exact absurd h (by decide)
  have h2 : ¬ (c = '\t') := fun e => by subst e; exact absurd h (by decide)
  have h3 : ¬ (c = '\n') := fun e => by subst e; exact absurd h (by decide)
  have h4 : ¬ (c = '\r') := fun e => by subst e; exact absurd h (by decide)
  have h5 : ¬ (c = '\x0b') := fun e => by subst e; exact absurd h (by decide)
  have h6 : ¬ (c = '\x0c') := fun e => by subst e; exact absurd h (by decide)
  simp [pySpace, h1, h2, h3, h4, h5, h6]

lemma ne_of_isDigit (c : Char) (h : c.isDigit = true) (a : Char) (ha : a.isDigit = false) :
    ¬ (c = a) := fun e => by
  subst e
  rw [h] at ha
  cases ha

lemma takeWhile_all_append (p : Char → Bool) (l1 l2 : List Char)
    (h : ∀ c ∈ l1, p c = true) : (l1 ++ l2).takeWhile p = l1 ++ l2.takeWhile p := by
  induction l1 with
  | nil => rfl
  | cons a t ih =>
    rw [List.cons_append, List.takeWhile_cons, h a (List.mem_cons_self a t),
      ih (fun c hc => h c (List.mem_cons_of_mem a hc))]
    rfl

lemma pyStripRight_concat (l : List Char) (a : Char) (ha : pySpace a = false) :
    pyStripRight (l ++ [a]) = l ++ [a] := by
  rw [pyStripRight, List.reverse_append]
  rw [List.reverse_singleton, List.singleton_append, List.dropWhile_cons, ha]
  simp

lemma pyStrip_digits_ws (d : Char) (ds' : List Char)
    (hd : ∀ c ∈ d :: ds', c.isDigit = true) :
    pyStrip (d :: (ds' ++ " Ws".data)) = d :: (ds' ++ " Ws".data) := by
  have hsp : pySpace d = false :=
    pySpace_eq_false_of_isDigit d (hd d (List.mem_cons_self _ _))
  rw [pyStrip, List.dropWhile_cons, hsp]
  simp only [Bool.false_eq_true, if_false]
  have hsplit : d :: (ds' ++ " Ws".data) = (d :: (ds' ++ " W".data)) ++ ['s'] := by
    simp [List.append_assoc]
  rw [hsplit, pyStripRight_concat _ 's' (by decide)]

lemma matchNum_digits_ws (d : Char) (ds' : List Char)
    (hd : ∀ c ∈ d :: ds', c.isDigit = true) :
    matchNum (d :: (ds' ++ " Ws".data)) = some (mkNum 1 (d :: ds') [] 1 [], some "Ws".data) := by
  have hd0 : d.isDigit = true := hd d (List.mem_cons_self _ _)
  have hsp : pySpace d = false := pySpace_eq_false_of_isDigit d hd0
  have hplus : ¬ (d = '+') := ne_of_isDigit d hd0 '+' (by decide)
  have hminus : ¬ (d = '-') := ne_of_isDigit d hd0 '-' (by decide)
  have h1 : (d :: (ds' ++ " Ws".data)).dropWhile pySpace = d :: (ds' ++ " Ws".data) := by
    rw [List.dropWhile_cons, hsp]
    simp
  have h2 : readSign (d :: (ds' ++ " Ws".data)) = (1, d :: (ds' ++ " Ws".data)) := by
    simp only [readSign]
    rw [if_neg hplus, if_neg hminus]
  have h3 : (d :: (ds' ++ " Ws".data)).takeWhile Char.isDigit = d :: ds' := by
    have ht := takeWhile_all_append Char.isDigit (d :: ds') " Ws".data hd
    simpa using ht
  have h4 : (d :: (ds' ++ " Ws".data)).drop (d :: ds').length = " Ws".data :=
    List.drop_left (d :: ds') " Ws".data
  simp only [matchNum, h1, h2, h3, h4]
  simp
  rfl

end Solarwatt

namespace Solarwatt

lemma parseCore_match (f : ℕ) (cs : List Char) (v : ℚ) (u : Option (List Char))
    (hN : pyStrip cs ≠ "NULL".data) (hON : pyStrip cs ≠ "ON".data)
    (hOFF : pyStrip cs ≠ "OFF".data) (hbar : ¬ ('|' ∈ pyStrip cs))
    (hm : matchNum (pyStrip cs) = some (v, u)) :
    parseCore (f + 1) cs = unitApply v u := by
  simp only [parseCore]
  rw [if_neg hN, if_neg hON, if_neg hOFF, if_neg hbar, hm]

lemma roundTo_intCast (n : ℕ) (m : ℤ) : roundTo n ((m : ℚ)) = (m : ℚ) := by
  rw [roundTo_of_cast n _ (m * 10 ^ n) (by push_cast; ring)]
  push_cast
  rw [mul_div_assoc, div_self (by positivity), mul_one]

/-- C4: for every raw state of the form `<n> Ws` with `n` a digit string,
the full unit pipeline Ws -> Wh -> kWh applies: the result has unit `kWh`
and value `n / 3600 / 1000` rounded to 3 decimals, narrowed to an integer
when integral; the same holds for the unit-normalisation block at any
rational value; in particular `parse("3600000 Ws")` yields the integer 1
with unit `kWh`. -/
theorem c4_ws_pipeline :
    (∀ ds : List Char, ds ≠ [] → (∀ c ∈ ds, c.isDigit = true) →
      parse_state (some (String.mk (ds ++ " Ws".data))) =
        { value := narrowVal (roundTo 3 ((digitsToNat ds : ℚ) / 3600 / 1000))
        , unit := some "kWh", timestamp_ms := none })
    ∧ (∀ v : ℚ, unitApply v (some "Ws".data) =
        { value := narrowVal (roundTo 3 (v / 3600 / 1000)), unit := some "kWh"
        , timestamp_ms := none })
    ∧ parse_state (some "3600000 Ws") =
        { value := .vint 1, unit := some "kWh", timestamp_ms := none } := by
  refine ⟨?_, fun v => unitApply_Ws v, ?_⟩
  · intro ds hne hd
    obtain ⟨d, ds', rfl⟩ := List.exists_cons_of_ne_nil hne
    have hstrip := pyStrip_digits_ws d ds' hd
    have hN : pyStrip (d :: (ds' ++ " Ws".data)) ≠ "NULL".data := by
      rw [hstrip]
      intro h
      injection h with h1 _
      have hh := hd d (List.mem_cons_self _ _)
      rw [h1] at hh
      exact absurd hh (by decide)
    have hON : pyStrip (d :: (ds' ++ " Ws".data)) ≠ "ON".data := by
      rw [hstrip]
      intro h
      injection h with h1 _
      have hh := hd d (List.mem_cons_self _ _)
      rw [h1] at hh
      exact absurd hh (by decide)
    have hOFF : pyStrip (d :: (ds' ++ " Ws".data)) ≠ "OFF".data := by
      rw [hstrip]
      intro h
      injection h with h1 _
      have hh := hd d (List.mem_cons_self _ _)
      rw [h1] at hh
      exact absurd hh (by decide)
    have hbar : ¬ ('|' ∈ pyStrip (d :: (ds' ++ " Ws".data))) := by
      rw [hstrip]
      intro h
      rcases List.mem_cons.1 h with h0 | h0
      · have hh := hd d (List.mem_cons_self _ _)
        rw [← h0] at hh
        exact absurd hh (by decide)
      · rcases List.mem_append.1 h0 with h1 | h1
        · exact absurd (hd '|' (List.mem_cons_of_mem d h1)) (by decide)
        · exact absurd h1 (by decide)
    have hmm : matchNum (pyStrip (d :: (ds' ++ " Ws".data)))
        = some (mkNum 1 (d :: ds') [] 1 [], some "Ws".data) := by
      rw [hstrip]
      exact matchNum_digits_ws d ds' hd
    have hmk2 : (String.mk (d :: ds' ++ " Ws".data)).data = d :: (ds' ++ " Ws".data) := rfl
    rw [parse_state_some, hmk2]
    rw [parseCore_match _ _ _ _ hN hON hOFF hbar hmm]
    rw [unitApply_Ws, mkNum_nat]
  · have h1 : parse_state (some "3600000 Ws") =
        unitApply (mkNum 1 "3600000".data [] 1 []) (some "Ws".data) := rfl
    rw [h1, unitApply_Ws, mkNum_nat]
    have e1 : digitsToNat "3600000".data = 3600000 := rfl
    rw [e1]
    have e2 : ((3600000 : ℕ) : ℚ) / 3600 / 1000 = ((1 : ℤ) : ℚ) := by norm_num
    rw [e2, roundTo_intCast 3 1, narrowVal_intCast 1]

/-- C4 witness: the digit-string case applied to `3600000`. -/
theorem c4_witness :
    parse_state (some (String.mk ("3600000".data ++ " Ws".data))) =
      { value := narrowVal (roundTo 3 ((digitsToNat "3600000".data : ℚ) / 3600 / 1000))
      , unit := some "kWh", timestamp_ms := none } :=
  c4_ws_pipeline.1 "3600000".data (by decide) (by decide)

/-- C5 witness: the split theorem applied to the concrete timestamped
state. -/
theorem c5_witness :
    parse_state (some "12345678|23.5 kWh") =
      { value := (parse_state (some (String.mk (barRight (pyStrip "12345678|23.5 kWh".data))))).value
      , unit := (parse_state (some (String.mk (barRight (pyStrip "12345678|23.5 kWh".data))))).unit
      , timestamp_ms := barTs (pyStrip "12345678|23.5 kWh".data) } :=
  c5_bar_split.1 "12345678|23.5 kWh" (by decide)

end Solarwatt
